import Mathlib

/-!
Verification of the Service Complaints Analyzer (`src/app.py`).

The script is a linear pipeline over an in-memory table:
load → column-name normalization → date parse → sidebar filters
(date range, complaint type, keyword, sentiment) → derived columns
(category, sentiment) → aggregations (value counts, trends, forecast).

We shallowly embed the table, the string operations the script relies on
(Python `str.strip` / `str.replace` / `str.lower` / substring `in`,
restricted to the ASCII fragment the data uses), each filter stage, the
derived-field functions `categorize` and `get_sentiment`, the pandas
`value_counts` aggregation, and the top-level control flow of the script
(which sections of the page run for a given load result).

External collaborators (TextBlob polarity, Prophet, widgets, file IO) are
modelled as parameters or as opaque section-entry flags: TextBlob's
polarity score is an arbitrary function `pol : List Char → ℚ`, and
"the forecast section ran" means the script reached `model.fit`
(lines 188-201), not that Prophet succeeded.
-/

namespace ComplaintsAnalyzer

/-! ## Python string primitives (ASCII fragment)

`lowerChar` is Python `str.lower` on ASCII code points: only `A`-`Z`
(codes 65-90) change, by adding 32. -/

def lowerChar (c : Char) : Char :=
  if 65 ≤ c.toNat ∧ c.toNat ≤ 90 then Char.ofNat (c.toNat + 32) else c

def lowerStr (s : List Char) : List Char :=
  s.map lowerChar

/-- Python `str.strip` whitespace set: space, \t, \n, \r, \v, \f. -/
def isPySpace (c : Char) : Bool :=
  c == ' ' || c == '\t' || c == '\n' || c == '\r' ||
    c.toNat == 11 || c.toNat == 12

/-- Python `str.strip()`: drop leading and trailing whitespace. -/
def pyStrip (s : List Char) : List Char :=
  (((s.dropWhile isPySpace).reverse).dropWhile isPySpace).reverse

/-- Python `str.replace(" ", "_")`: a single-character replace is a map. -/
def replSpace (s : List Char) : List Char :=
  s.map (fun c => if c == ' ' then '_' else c)

/-- `col.strip().replace(" ", "_").lower()` — app.py line 42. -/
def normName (s : List Char) : List Char :=
  lowerStr (replSpace (pyStrip s))

/-- `matchesAt hay pat`: `pat` is an initial segment of `hay`. -/
def matchesAt : List Char → List Char → Bool
  | _, [] => true
  | [], _ :: _ => false
  | a :: hs, b :: ps => a == b && matchesAt hs ps

/-- Python `pat in hay` for strings: `pat` occurs contiguously in `hay`.
(The pandas `.str.contains` call is used by the app on user keywords;
we model the literal-substring semantics the spec describes.) -/
def hasSub : List Char → List Char → Bool
  | [], pat => matchesAt [] pat
  | hay@(_ :: t), pat => matchesAt hay pat || hasSub t pat

/-! ## Data model

A table is a raw header (the CSV column names, as the script sees them in
`df.columns`) together with a list of rows.  The row type is a parameter:
the pipeline instantiates it with `Row`, which carries the cells of the
three columns the script reads (`date` after `pd.to_datetime` coercion,
with unparsable/missing as `none`; `complainttype`; `description`).
`none` models a pandas missing value (NaN/NaT). -/

structure Table (ρ : Type) where
  header : List (List Char)
  rows : List ρ
  deriving Repr, DecidableEq

/-- `name in df.columns`. -/
def Table.hasCol {ρ : Type} (t : Table ρ) (c : List Char) : Bool :=
  t.header.contains c

structure Row where
  date : Option Nat
  complainttype : Option (List Char)
  description : Option (List Char)
  deriving Repr, DecidableEq

def dateCol : List Char := "date".toList
def complainttypeCol : List Char := "complainttype".toList
def descriptionCol : List Char := "description".toList

/-- Line 42: `df.columns = [col.strip().replace(" ", "_").lower() for col
in df.columns]` — an assignment to `df.columns` only; the cells are
untouched. -/
def normalize_columns {ρ : Type} (t : Table ρ) : Table ρ :=
  { t with header := t.header.map normName }

/-- `'complainttype' in df.columns` after normalization (the gate at
lines 65 and 119 as reached from the raw CSV header). -/
def complaintTypeRecognized (rawHeader : List (List Char)) : Bool :=
  (rawHeader.map normName).contains complainttypeCol

/-! ## Derived fields -/

inductive Category where
  | Billing | Network | Performance | CustomerService | Other | Unknown
  deriving Repr, DecidableEq

/-- `categorize` — app.py lines 131-145.  `none` is `pd.isna`. -/
def categorize (text : Option (List Char)) : Category :=
  match text with
  | none => .Unknown
  | some t =>
    let s := lowerStr t
    if hasSub s "bill".toList || hasSub s "refund".toList then .Billing
    else if hasSub s "network".toList || hasSub s "signal".toList then .Network
    else if hasSub s "slow".toList || hasSub s "speed".toList then .Performance
    else if hasSub s "service".toList || hasSub s "support".toList
        || hasSub s "rude".toList then .CustomerService
    else .Other

inductive Sentiment where
  | Positive | Neutral | Negative
  deriving Repr, DecidableEq

/-- `get_sentiment` — app.py lines 89-100.  TextBlob's polarity score is
the external parameter `pol`; the Python literal `0.1` is the rational
one tenth, written `mkRat 1 10` so that it evaluates by reduction. -/
def get_sentiment (pol : List Char → ℚ) (text : Option (List Char)) : Sentiment :=
  match text with
  | none => .Neutral
  | some t =>
    let polarity := pol t
    if polarity > mkRat 1 10 then .Positive
    else if polarity < -(mkRat 1 10) then .Negative
    else .Neutral

/-- Modelled from the spec: the sentiment bucketing policy as §4.4 words
it, a single function of the score with one fixed threshold. -/
def bucketScore (q : ℚ) : Sentiment :=
  if q > 1/10 then .Positive
  else if q < -(1/10) then .Negative
  else .Neutral

/-- Modelled from the spec: §4.4's "ordered list of (predicate, label)
rules evaluated in sequence", first match wins, default `Other`. -/
def firstMatch : List ((List Char → Bool) × Category) → List Char → Category
  | [], _ => .Other
  | (p, c) :: rest, s => if p s then c else firstMatch rest s

/-- Modelled from the spec: the four ordered keyword groups of §4.4. -/
def specRules : List ((List Char → Bool) × Category) :=
  [ (fun s => hasSub s "bill".toList || hasSub s "refund".toList, .Billing),
    (fun s => hasSub s "network".toList || hasSub s "signal".toList, .Network),
    (fun s => hasSub s "slow".toList || hasSub s "speed".toList, .Performance),
    (fun s => hasSub s "service".toList || hasSub s "support".toList
        || hasSub s "rude".toList, .CustomerService) ]

/-- Modelled from the spec: §4.4's categorizer — `Unknown` for missing,
else first-match-wins over the ordered rules on the lowercased text. -/
def categorizeSpec (text : Option (List Char)) : Category :=
  match text with
  | none => .Unknown
  | some t => firstMatch specRules (lowerStr t)

/-! ## Filter stages (sidebar, lines 48-107)

Each stage mirrors one `df = df[mask]` assignment together with the `if`
gate around it.  A gate that is off leaves the table unchanged.  All
stages keep `header` as is, so we factor the common shape through
`gatedRows`. -/

def gatedRows {α : Type} (active : Bool) (p : α → Bool) (l : List α) : List α :=
  if active then l.filter p else l

/-- Row mask of line 59: `(df['date'].dt.date >= start_date) &
(df['date'].dt.date <= end_date)`.  A missing date (`NaT`) compares
`false` on both sides, so such rows are dropped. -/
def datePred (startDate endDate : Nat) (r : Row) : Bool :=
  match r.date with
  | some d => decide (startDate ≤ d) && decide (d ≤ endDate)
  | none => false

/-- Gate of line 52: `'date' in df.columns and df['date'].notna().any()`. -/
def dateFilterActive (t : Table Row) : Bool :=
  t.hasCol dateCol && t.rows.any (fun r => r.date.isSome)

/-- Lines 52-59: the date-range filter. -/
def applyDateFilter (startDate endDate : Nat) (t : Table Row) : Table Row :=
  { t with rows := gatedRows (dateFilterActive t) (datePred startDate endDate) t.rows }

/-- Line 59 in isolation: the date mask applied unconditionally. -/
def dateMaskFilter (startDate endDate : Nat) (t : Table Row) : Table Row :=
  { t with rows := t.rows.filter (datePred startDate endDate) }

/-- Line 67: `df['complainttype'].dropna().unique().tolist()`. -/
def complaint_options (t : Table Row) : List (List Char) :=
  (t.rows.filterMap Row.complainttype).dedup

/-- Row mask of line 74: `df['complainttype'].isin(selected_types)`.
`isin` is `false` on a missing value (the selection is drawn from the
`dropna`'d options). -/
def typePred (selectedTypes : List (List Char)) (r : Row) : Bool :=
  match r.complainttype with
  | some v => selectedTypes.contains v
  | none => false

/-- Gates of lines 65 and 68: the column exists and the option list is
non-empty (otherwise the multiselect, and with it the filter, is not
shown at all). -/
def typeFilterActive (t : Table Row) : Bool :=
  t.hasCol complainttypeCol && !(complaint_options t).isEmpty

/-- Lines 65-78: the complaint-type filter. -/
def applyComplaintTypeFilter (selectedTypes : List (List Char)) (t : Table Row) :
    Table Row :=
  { t with rows := gatedRows (typeFilterActive t) (typePred selectedTypes) t.rows }

/-- Line 74 in isolation: the membership mask applied unconditionally. -/
def typeMaskFilter (selectedTypes : List (List Char)) (t : Table Row) : Table Row :=
  { t with rows := t.rows.filter (typePred selectedTypes) }

/-- `astype(str)` of line 84: pandas renders a missing value as the
string `"nan"` before the substring test. -/
def strRender (d : Option (List Char)) : List Char :=
  match d with
  | some s => s
  | none => "nan".toList

/-- Row mask of line 84:
`df['description'].astype(str).str.lower().str.contains(keyword, na=False)`.
After `astype(str)` no missing values remain, so `na=False` is inert. -/
def keywordPred (keyword : List Char) (r : Row) : Bool :=
  hasSub (lowerStr (strRender r.description)) keyword

/-- Line 82: the raw text-input is `.strip().lower()`ed. -/
def effectiveKeyword (rawKeyword : List Char) : List Char :=
  lowerStr (pyStrip rawKeyword)

/-- Gate of line 83: `if keyword and 'description' in df.columns`. -/
def keywordFilterActive (rawKeyword : List Char) (t : Table Row) : Bool :=
  !(effectiveKeyword rawKeyword).isEmpty && t.hasCol descriptionCol

/-- Lines 82-84: the keyword filter. -/
def applyKeywordFilter (rawKeyword : List Char) (t : Table Row) : Table Row :=
  { t with rows := gatedRows (keywordFilterActive rawKeyword t) (keywordPred (effectiveKeyword rawKeyword)) t.rows }

/-- Modelled from the spec: §4.3's keyword predicate — "`description`
contains the keyword substring, case-insensitive (missing description →
excluded when a keyword is set)". -/
def keywordPredSpec (keyword : List Char) (r : Row) : Bool :=
  match r.description with
  | some d => hasSub (lowerStr d) keyword
  | none => false

/-- Gate of line 88 (which encloses both the sentiment computation at
line 102 and the sentiment filter at line 107). -/
def sentimentFilterActive (t : Table Row) : Bool :=
  t.hasCol descriptionCol

/-- Lines 88-107: sentiment is derived from `description`, then rows are
kept when the derived label is in the multiselect. -/
def applySentimentFilter (pol : List Char → ℚ)
    (selectedSentiments : List Sentiment) (t : Table Row) : Table Row :=
  { t with rows := gatedRows (sentimentFilterActive t) (fun r => selectedSentiments.contains (get_sentiment pol r.description)) t.rows }

/-- The user's sidebar selections, one render cycle's `FilterCriteria`. -/
structure Criteria where
  startDate : Nat
  endDate : Nat
  selectedTypes : List (List Char)
  keyword : List Char
  selectedSentiments : List Sentiment
  deriving Repr, DecidableEq

/-- Lines 52-107 in script order: date, complaint type, keyword,
sentiment. -/
def filterChain (pol : List Char → ℚ) (t : Table Row) (c : Criteria) : Table Row :=
  applySentimentFilter pol c.selectedSentiments
    (applyKeywordFilter c.keyword
      (applyComplaintTypeFilter c.selectedTypes
        (applyDateFilter c.startDate c.endDate t)))

/-! ## Aggregations -/

/-- pandas `Series.value_counts()` on a column with possible missing
values: missing entries are dropped, then each distinct value is paired
with its number of occurrences.  (We do not model the descending sort —
no claim depends on the order of the pairs.) -/
def value_counts {α : Type} [DecidableEq α] (l : List (Option α)) : List (α × Nat) :=
  ((l.filterMap id).dedup).map (fun v => (v, (l.filterMap id).count v))

/-- Line 147: `df['category'] = df['description'].apply(categorize)` —
never missing (`categorize` is total). -/
def categoryColumn (t : Table Row) : List (Option Category) :=
  t.rows.map (fun r => some (categorize r.description))

/-- Line 102: `df['sentiment'] = df['description'].apply(get_sentiment)`
— never missing (`get_sentiment` is total). -/
def sentimentColumn (pol : List Char → ℚ) (t : Table Row) : List (Option Sentiment) :=
  t.rows.map (fun r => some (get_sentiment pol r.description))

/-- The raw `complainttype` column, missing values included. -/
def complainttypeColumn (t : Table Row) : List (Option (List Char)) :=
  t.rows.map Row.complainttype

/-! ## Top-level control flow

Which sections of the page run for a given load result.  The crucial
structural fact of `app.py` is that line 187's `if 'date' in df.columns:`
and its `else:` at line 283 are at top level, OUTSIDE the validity guard
`if df is not None and not df.empty:` of line 40 — so forecasting (188),
the PDF report (203), the theme toggle (224), the trend charts (231) and
the LDA topic modeling (246-281) are all nested under the date gate, and
the "No valid data available" warning at line 284 is printed exactly when
the date gate fails. -/

structure Outcome where
  /-- The guarded block of line 40 ran. -/
  mainRan : Bool
  /-- Line 284's "No valid data available" warning was shown. -/
  noValidDataWarning : Bool
  /-- Python raised before the render completed (AttributeError at line
  187, `'date' in df.columns` with `df = None`). -/
  crashed : Bool
  /-- The forecast section (lines 188-201, reaching `model.fit`) ran. -/
  forecastRan : Bool
  /-- The daily/monthly trend charts (lines 233-241) ran. -/
  trendRan : Bool
  /-- The LDA topic-modeling section (guard at line 247 passed) ran. -/
  ldaRan : Bool
  /-- Categorization (lines 131-153) ran. -/
  categorizeRan : Bool
  /-- Sentiment computation (lines 89-107) ran. -/
  sentimentRan : Bool
  /-- The word cloud (lines 174-182) ran. -/
  wordCloudRan : Bool
  deriving Repr, DecidableEq

/-- The whole script, lines 40-284, as a function of the load result
(`none` = unreadable upload / missing fallback, line 24 or 37), the
sidebar selections and the external polarity scorer.  Sections that
merely render are projected away; `Outcome` records which ones ran. -/
def script (pol : List Char → ℚ) (c : Criteria) (load : Option (Table Row)) :
    Outcome :=
  match load with
  | none =>
      -- Line 40's guard is False, lines 41-184 are skipped; line 187
      -- then evaluates `'date' in df.columns` on `None` and raises.
      { mainRan := false, noValidDataWarning := false, crashed := true
        forecastRan := false, trendRan := false, ldaRan := false
        categorizeRan := false, sentimentRan := false, wordCloudRan := false }
  | some t0 =>
      if t0.rows.isEmpty then
        -- `df.empty` is True: lines 41-184 (normalization included!) are
        -- skipped; line 187 tests the RAW header of the empty table.
        { mainRan := false
          noValidDataWarning := !(t0.hasCol dateCol)
          crashed := false
          forecastRan := t0.hasCol dateCol
          trendRan := false  -- line 232: `notna().any()` on zero rows
          ldaRan := false    -- line 247: `df['description'].empty`
          categorizeRan := false, sentimentRan := false, wordCloudRan := false }
      else
        let t1 := normalize_columns t0
        let df := filterChain pol t1 c
        { mainRan := true
          noValidDataWarning := !(df.hasCol dateCol)
          crashed := false
          forecastRan := df.hasCol dateCol
          trendRan := df.hasCol dateCol && df.rows.any (fun r => r.date.isSome)
          ldaRan := df.hasCol dateCol && df.hasCol descriptionCol && !df.rows.isEmpty
          categorizeRan := df.hasCol descriptionCol
          sentimentRan := df.hasCol descriptionCol
          wordCloudRan := df.hasCol descriptionCol }

/-! ## Concrete fixtures for the closed evaluations -/

/-- A polarity scorer that scores everything 0 (any fixed external
scorer works; the control-flow facts do not depend on it). -/
def pol0 : List Char → ℚ := fun _ => 0

/-- Sidebar state with every filter wide open. -/
def crit0 : Criteria :=
  { startDate := 0, endDate := 1000, selectedTypes := [], keyword := []
    selectedSentiments := [.Positive, .Neutral, .Negative] }

/-- A CSV that has only a header line `date`: zero data rows. -/
def emptyDateTable : Table Row := { header := [dateCol], rows := [] }

/-- One complaint with a description but no `date` column at all. -/
def noDateTable : Table Row :=
  { header := [descriptionCol],
    rows := [{ date := none, complainttype := none, description := some "bill not paid".toList }] }

/-- One row whose `description` is missing (NaN). -/
def nanDescTable : Table Row :=
  { header := [descriptionCol],
    rows := [{ date := none, complainttype := none, description := none }] }

/-- A fully-populated row that passes all four filters below. -/
def witnessRow : Row :=
  { date := some 5, complainttype := some "Billing".toList,
    description := some "wrong bill amount".toList }

def witnessTable : Table Row :=
  { header := [dateCol, complainttypeCol, descriptionCol], rows := [witnessRow] }

/-- Sidebar state that keeps every filter active and lets the row
through: range [0,9], type "Billing" selected, keyword "bill",
Neutral selected (the zero scorer labels everything Neutral). -/
def witnessCrit : Criteria :=
  { startDate := 0, endDate := 9, selectedTypes := ["Billing".toList]
    keyword := "bill".toList, selectedSentiments := [.Neutral] }

end ComplaintsAnalyzer

namespace ComplaintsAnalyzer

/-! ## Helper lemmas -/

theorem lowerChar_idem (c : Char) : lowerChar (lowerChar c) = lowerChar c := by
  by_cases h : 65 ≤ c.toNat ∧ c.toNat ≤ 90
  · have hc : lowerChar c = Char.ofNat (c.toNat + 32) := by
      unfold lowerChar; rw [if_pos h]
    rw [hc]
    obtain ⟨h1, h2⟩ := h
    generalize c.toNat = n at h1 h2 ⊢
    interval_cases n <;> decide
  · have hc : lowerChar c = c := by
      unfold lowerChar; rw [if_neg h]
    rw [hc, hc]

theorem lowerStr_idem (s : List Char) : lowerStr (lowerStr s) = lowerStr s := by
  unfold lowerStr
  rw [List.map_map]
  exact List.map_congr_left (fun c _ => lowerChar_idem c)

theorem gatedRows_sublist {α : Type} (b : Bool) (p : α → Bool) (l : List α) :
    (gatedRows b p l).Sublist l := by
  cases b
  · exact List.Sublist.refl l
  · exact List.filter_sublist l

theorem mem_of_mem_gatedRows {α : Type} {b : Bool} {p : α → Bool} {l : List α}
    {r : α} (h : r ∈ gatedRows b p l) : r ∈ l :=
  (gatedRows_sublist b p l).mem h

theorem pred_of_mem_gatedRows {α : Type} {b : Bool} {p : α → Bool} {l : List α}
    {r : α} (h : r ∈ gatedRows b p l) (hb : b = true) : p r = true := by
  subst hb
  exact (List.mem_filter.mp h).2

theorem value_counts_sum {α : Type} [DecidableEq α] (l : List (Option α)) :
    ((value_counts l).map Prod.snd).sum = (l.filterMap id).length := by
  unfold value_counts
  rw [List.map_map]
  exact List.sum_map_count_dedup_eq_length (l.filterMap id)

theorem filterMap_id_map_some {α β : Type} (f : α → β) (l : List α) :
    (l.map (fun a => some (f a))).filterMap id = l.map f := by
  induction l with
  | nil => rfl
  | cons a t ih => simp [ih]

theorem mkRat_one_ten : mkRat 1 10 = (1 : ℚ)/10 := by
  norm_num [mkRat]

/-! ## Claim theorems -/

/-- C1: the claim says that for an empty input table (or a failed/absent
load) the pipeline reports the empty-dataset condition, halts that run
producing no aggregations or forecast, and does not crash.  The code
violates this: the date-gated block of line 187 sits outside line 40's
validity guard, so a `None` load crashes evaluating `df.columns`, and an
empty table that does have a `date` column shows no empty-dataset report
and enters the forecast block; only an empty table without a `date`
column is reported (last conjunct). -/
theorem c1_empty_dataset_code_bug :
    (script pol0 crit0 none).crashed = true ∧
    (script pol0 crit0 (some emptyDateTable)).noValidDataWarning = false ∧
    (script pol0 crit0 (some emptyDateTable)).forecastRan = true ∧
    (script pol0 crit0 (some emptyDateTable)).mainRan = false ∧
    (script pol0 crit0 (some { header := [], rows := [] })).noValidDataWarning = true := by
  decide

/-- C2: the claim says that for a non-empty table with no `date` column
only the date-based features are omitted and everything else — topic
modeling included — runs unaffected.  The code violates this: the LDA
topic-modeling section (lines 246-281) is nested inside the top-level
`if 'date' in df.columns:` block, so it is skipped (and the misleading
"No valid data available" warning is shown) even though categorization,
sentiment and the word cloud do run. -/
theorem c2_no_date_skips_lda_code_bug :
    (script pol0 crit0 (some noDateTable)).mainRan = true ∧
    (script pol0 crit0 (some noDateTable)).categorizeRan = true ∧
    (script pol0 crit0 (some noDateTable)).sentimentRan = true ∧
    (script pol0 crit0 (some noDateTable)).wordCloudRan = true ∧
    (script pol0 crit0 (some noDateTable)).ldaRan = false ∧
    (script pol0 crit0 (some noDateTable)).noValidDataWarning = true := by
  decide

/-- C3 counterexample: the claim says any case/spacing variant such as
"Complaint Type" is recognized as the complaint-type column after
normalization.  But normalization maps spaces to underscores, producing
`complaint_type`, while the code's gates test for `complainttype` (no
underscore) — so the spaced variant is NOT recognized. -/
theorem c3_spaced_variant_not_recognized :
    complaintTypeRecognized ["Complaint Type".toList] = false ∧
    normName "Complaint Type".toList = "complaint_type".toList := by
  decide

/-- C3 (amended): the complaint-type column is recognized exactly when
some raw header normalizes (trim, spaces→underscores, lowercase) to the
literal name `complainttype`; case variants and surrounding-whitespace
variants such as "ComplaintType" or " COMPLAINTTYPE " are recognized,
but variants with internal spaces such as "Complaint Type" normalize to
`complaint_type` and the complaint-type filter and per-type count are
skipped. -/
theorem c3_recognition_amended :
    (∀ hdr : List (List Char),
      complaintTypeRecognized hdr = true ↔ ∃ raw ∈ hdr, normName raw = complainttypeCol) ∧
    complaintTypeRecognized ["ComplaintType".toList] = true ∧
    complaintTypeRecognized [" COMPLAINTTYPE ".toList] = true ∧
    complaintTypeRecognized ["Complaint Type".toList] = false := by
  refine ⟨?_, by decide, by decide, by decide⟩
  intro hdr
  unfold complaintTypeRecognized
  constructor
  · intro hc
    obtain ⟨raw, hraw, heq⟩ := List.mem_map.mp (List.elem_iff.mp hc)
    exact ⟨raw, hraw, heq⟩
  · rintro ⟨raw, hraw, heq⟩
    exact List.elem_iff.mpr (List.mem_map.mpr ⟨raw, hraw, heq⟩)

/-- C4: the claim says the keyword filter keeps exactly the rows whose
`description` contains the keyword case-insensitively and that rows with
a missing description are always excluded.  The code violates the second
part: line 84's `astype(str)` renders a missing description as the
string "nan" before matching, so with keyword "nan" the missing-value
row is KEPT even though the spec-worded predicate excludes it, and
`na=False` (whose purpose was exactly that exclusion) is dead. -/
theorem c4_missing_description_kept_code_bug :
    keywordFilterActive "nan".toList nanDescTable = true ∧
    (applyKeywordFilter "nan".toList nanDescTable).rows = nanDescTable.rows ∧
    nanDescTable.rows.map Row.description = [none] ∧
    nanDescTable.rows.filter (keywordPredSpec (effectiveKeyword "nan".toList)) = [] := by
  decide

/-- C5: `categorize` is total over the category codomain (it is a total
Lean function), maps a missing/non-text description to `Unknown` before
any lower-casing, is case-insensitive, and agrees everywhere with the
spec's first-match-wins evaluation of the ordered keyword rules; in
particular "BILL issue" and "bill issue" categorize identically. -/
theorem c5_categorize_first_match_case_insensitive :
    (∀ d : Option (List Char), categorize d = categorizeSpec d) ∧
    (∀ s : List Char, categorize (some s) = categorize (some (lowerStr s))) ∧
    categorize none = Category.Unknown ∧
    categorize (some "BILL issue".toList) = categorize (some "bill issue".toList) ∧
    categorize (some "BILL issue".toList) = Category.Billing := by
  refine ⟨?_, ?_, rfl, by decide, by decide⟩
  · intro d
    cases d <;> rfl
  · intro s
    simp only [categorize, lowerStr_idem]

/-- C6: for every polarity scorer and record, the sentiment label is the
single-threshold bucketing of the score — strictly above 1/10 is
Positive, strictly below −1/10 is Negative, everything in between is
Neutral — and a missing description is labeled Neutral. -/
theorem c6_sentiment_single_threshold :
    (∀ pol : List Char → ℚ, get_sentiment pol none = Sentiment.Neutral) ∧
    (∀ (pol : List Char → ℚ) (t : List Char),
      get_sentiment pol (some t) = bucketScore (pol t)) ∧
    (∀ q : ℚ,
      (bucketScore q = Sentiment.Positive ↔ q > 1/10) ∧
      (bucketScore q = Sentiment.Negative ↔ q < -(1/10)) ∧
      (bucketScore q = Sentiment.Neutral ↔ -(1/10) ≤ q ∧ q ≤ 1/10)) := by
  refine ⟨fun _ => rfl, ?_, ?_⟩
  · intro pol t
    simp only [get_sentiment, bucketScore, mkRat_one_ten]
  · intro q
    unfold bucketScore
    split_ifs with h1 h2
    · exact ⟨iff_of_true rfl h1,
        iff_of_false (by decide) (by intro h; linarith),
        iff_of_false (by decide) (by rintro ⟨_, h⟩; linarith)⟩
    · exact ⟨iff_of_false (by decide) h1,
        iff_of_true rfl h2,
        iff_of_false (by decide) (by rintro ⟨h, _⟩; linarith)⟩
    · exact ⟨iff_of_false (by decide) h1,
        iff_of_false (by decide) h2,
        iff_of_true rfl ⟨not_lt.mp h2, not_lt.mp h1⟩⟩

/-- C7: the sidebar filter chain (date range, complaint type, keyword,
sentiment, in script order and with the script's own activation gates)
returns a subsequence of the input rows in their original order, hence
at most as many rows, and every surviving row satisfies each predicate
whose stage was active: date inside the inclusive range (missing dates
excluded), complaint type in the selected set, lowercased rendered
description containing the keyword, and derived sentiment in the
selected set. -/
theorem c7_filter_stage_sound :
    ∀ (pol : List Char → ℚ) (t : Table Row) (c : Criteria),
      (filterChain pol t c).rows.Sublist t.rows ∧
      (filterChain pol t c).rows.length ≤ t.rows.length ∧
      (∀ r ∈ (filterChain pol t c).rows,
        (dateFilterActive t = true → datePred c.startDate c.endDate r = true) ∧
        (typeFilterActive (applyDateFilter c.startDate c.endDate t) = true →
          typePred c.selectedTypes r = true) ∧
        (keywordFilterActive c.keyword t = true →
          keywordPred (effectiveKeyword c.keyword) r = true) ∧
        (sentimentFilterActive t = true →
          c.selectedSentiments.contains (get_sentiment pol r.description) = true)) := by
  intro pol t c
  have hs1 : (applyDateFilter c.startDate c.endDate t).rows.Sublist t.rows :=
    gatedRows_sublist _ _ _
  have hs2 : (applyComplaintTypeFilter c.selectedTypes
      (applyDateFilter c.startDate c.endDate t)).rows.Sublist
      (applyDateFilter c.startDate c.endDate t).rows :=
    gatedRows_sublist _ _ _
  have hs3 : (applyKeywordFilter c.keyword (applyComplaintTypeFilter c.selectedTypes
      (applyDateFilter c.startDate c.endDate t))).rows.Sublist
      (applyComplaintTypeFilter c.selectedTypes
        (applyDateFilter c.startDate c.endDate t)).rows :=
    gatedRows_sublist _ _ _
  have hs4 : (filterChain pol t c).rows.Sublist
      (applyKeywordFilter c.keyword (applyComplaintTypeFilter c.selectedTypes
        (applyDateFilter c.startDate c.endDate t))).rows :=
    gatedRows_sublist _ _ _
  have hsub : (filterChain pol t c).rows.Sublist t.rows :=
    ((hs4.trans hs3).trans hs2).trans hs1
  refine ⟨hsub, hsub.length_le, ?_⟩
  intro r hr
  have hr3 : r ∈ (applyKeywordFilter c.keyword (applyComplaintTypeFilter
      c.selectedTypes (applyDateFilter c.startDate c.endDate t))).rows :=
    mem_of_mem_gatedRows hr
  have hr2 : r ∈ (applyComplaintTypeFilter c.selectedTypes
      (applyDateFilter c.startDate c.endDate t)).rows :=
    mem_of_mem_gatedRows hr3
  have hr1 : r ∈ (applyDateFilter c.startDate c.endDate t).rows :=
    mem_of_mem_gatedRows hr2
  refine ⟨fun hb => pred_of_mem_gatedRows hr1 hb,
    fun hb => pred_of_mem_gatedRows hr2 hb,
    fun hb => pred_of_mem_gatedRows hr3 hb,
    fun hb => ?_⟩
  exact @pred_of_mem_gatedRows Row (sentimentFilterActive t)
    (fun r => c.selectedSentiments.contains (get_sentiment pol r.description))
    ((applyKeywordFilter c.keyword (applyComplaintTypeFilter c.selectedTypes
      (applyDateFilter c.startDate c.endDate t))).rows) r hr hb

/-- C7 witness: the chain evaluated on a concrete one-row table with all
four filters active; the surviving row satisfies the date predicate. -/
theorem c7_filter_stage_sound_witness :
    datePred 0 9 witnessRow = true :=
  ((c7_filter_stage_sound pol0 witnessTable witnessCrit).2.2 witnessRow
    (by decide)).1 (by decide)

/-- C8: the two row masks — line 59's date-range mask and line 74's
complaint-type membership mask — commute: filtering by date then by type
yields the same table as filtering by type then by date, for every
table, range and selected-type set. -/
theorem c8_date_type_filters_commute :
    ∀ (t : Table Row) (s e : Nat) (sel : List (List Char)),
      typeMaskFilter sel (dateMaskFilter s e t) = dateMaskFilter s e (typeMaskFilter sel t) := by
  intro t s e sel
  unfold typeMaskFilter dateMaskFilter
  simp only [List.filter_filter]
  congr 1
  exact List.filter_congr (fun a _ => Bool.and_comm _ _)

/-- C9: every `value_counts` aggregation's counts sum to the number of
entries of the grouped column that are non-missing; in particular the
per-category counts and per-sentiment counts each sum to the full row
count (those derived columns are total), and the per-complaint-type
counts sum to the number of rows with a non-missing complaint type. -/
theorem c9_aggregation_counts_sum :
    (∀ l : List (Option (List Char)),
      ((value_counts l).map Prod.snd).sum = (l.filterMap id).length) ∧
    (∀ t : Table Row,
      ((value_counts (categoryColumn t)).map Prod.snd).sum = t.rows.length) ∧
    (∀ (pol : List Char → ℚ) (t : Table Row),
      ((value_counts (sentimentColumn pol t)).map Prod.snd).sum = t.rows.length) ∧
    (∀ t : Table Row,
      ((value_counts (complainttypeColumn t)).map Prod.snd).sum =
        (t.rows.filterMap Row.complainttype).length) := by
  refine ⟨value_counts_sum, ?_, ?_, ?_⟩
  · intro t
    rw [value_counts_sum, categoryColumn, filterMap_id_map_some, List.length_map]
  · intro pol t
    rw [value_counts_sum, sentimentColumn, filterMap_id_map_some, List.length_map]
  · intro t
    rw [value_counts_sum, complainttypeColumn, List.filterMap_map]
    simp

/-- C10: the schema normalizer of line 42 rewrites only the column
names: the normalized table has exactly the original rows (hence the
same row count and unchanged cells), and its header is the original
header mapped through the name normalization (hence the same number of
columns in the same order). -/
theorem c10_normalize_columns_frame :
    ∀ (ρ : Type) (t : Table ρ),
      (normalize_columns t).rows = t.rows ∧
      (normalize_columns t).header = t.header.map normName ∧
      (normalize_columns t).header.length = t.header.length ∧
      (normalize_columns t).rows.length = t.rows.length := by
  intro ρ t
  refine ⟨rfl, rfl, ?_, rfl⟩
  simp [normalize_columns]

end ComplaintsAnalyzer
